import Mathlib

/-!
Verification of the FileWise heuristic compression classifier.

The development embeds, from `src/components/features/file-compression.tsx`,
the dummy-analysis classifier inside `analyzeFile` (the decision table on
`fileType`/`fileSize`), and, from `src/services/file-system.ts` and
`src/ai/flows/analyze-compression-quality.ts`, the mock `getFile` lookup and
the file-lookup step of `analyzeCompressionQualityFlow`.

JavaScript `Math.random()` (a draw in `[0,1)`) is modelled as an explicit
rational parameter `r` with hypotheses `0 ≤ r` and `r < 1`; `Math.floor`
becomes `Int.floor` on `ℚ`.  `String.prototype.toLowerCase` is modelled by
`toLowerString` and `String.prototype.includes` by the substring test
`strIncludes`.
-/

/-- Substring occurrence on character lists: `includesAux pat s = true` iff
`pat` occurs contiguously in `s`.  Auxiliary for `strIncludes`. -/
def includesAux (pat : List Char) : List Char → Bool
  | [] => pat.isEmpty
  | c :: rest => List.isPrefixOf pat (c :: rest) || includesAux pat rest

/-- Model of JavaScript `s.includes(pat)`: `pat` occurs as a contiguous
substring of `s`. -/
def strIncludes (s pat : String) : Bool :=
  includesAux pat.data s.data

/-- Model of JavaScript `s.toLowerCase()`: lower each character.  This is the
list-based form of core `String.toLower` (which maps `Char.toLower` over the
characters via byte positions). -/
def toLowerString (s : String) : String :=
  String.mk (s.data.map Char.toLower)

/-- The `recommendedMethod` enum of `AnalyzeCompressionQualityOutput`
(`src/ai/flows/analyze-compression-quality.ts`). -/
inductive RecommendedMethod
  | lossless_optimized
  | lossy_high_quality
  | lossy_balanced
  | none
deriving DecidableEq, Repr

/-- The output shape `AnalyzeCompressionQualityOutput`
(`src/ai/flows/analyze-compression-quality.ts`): the classifier's advice.
The estimated reduction is an integer percentage (every value the classifier
produces is a `Math.floor` result), optional as in the schema. -/
structure CompressionAdvice where
  shouldCompress : Bool
  recommendedMethod : RecommendedMethod
  estimatedReductionPercent : Option ℤ
  qualityImpactDescription : String
deriving DecidableEq, Repr

/-- First decision-table row of `analyzeFile`
(`src/components/features/file-compression.tsx`, line 450): already-compressed
formats, tested as lowercase substrings of the lowered MIME type. -/
def isPreCompressedType (t : String) : Bool :=
  strIncludes t "jpeg" || strIncludes t "jpg" || strIncludes t "mp3" ||
  strIncludes t "aac" || strIncludes t "mp4" || strIncludes t "mov" ||
  strIncludes t "zip" || strIncludes t "7z" || strIncludes t "gz" ||
  strIncludes t "heic"

/-- Second decision-table row (line 461): lossless image formats. -/
def isLosslessImageType (t : String) : Bool :=
  strIncludes t "png" || strIncludes t "gif" || strIncludes t "tiff" ||
  strIncludes t "bmp"

/-- Third decision-table row (line 465): uncompressed audio formats. -/
def isLosslessAudioType (t : String) : Bool :=
  strIncludes t "wav" || strIncludes t "aiff"

/-- Fourth decision-table row (line 469): text-like formats. -/
def isTextLikeType (t : String) : Bool :=
  strIncludes t "text" || strIncludes t "csv" || strIncludes t "log" ||
  strIncludes t "html" || strIncludes t "css" || strIncludes t "js" ||
  strIncludes t "json" || strIncludes t "xml"

/-- The dummy-analysis classifier inside `analyzeFile`
(`src/components/features/file-compression.tsx`, lines 443-478).  `r` models
the `Math.random()` draw of the branch that executes (each branch draws at
most once).  In the first row the percent and method are computed before the
small-size override, which then replaces all fields it touches, so the
override branch is written directly with its final values. -/
def analyzeFile (fileName : String) (fileSize : ℕ) (fileType : String) (r : ℚ) :
    CompressionAdvice :=
  let lowerCaseType := toLowerString fileType
  if isPreCompressedType lowerCaseType then
    if fileSize < 1024 * 200 then
      { shouldCompress := false
        recommendedMethod := RecommendedMethod.none
        estimatedReductionPercent := Option.none
        qualityImpactDescription := "Likely already efficiently compressed." }
    else
      { shouldCompress := true
        recommendedMethod :=
          if fileSize > 10 * 1024 * 1024 then RecommendedMethod.lossy_high_quality
          else RecommendedMethod.lossless_optimized
        estimatedReductionPercent := Option.some ⌊(5 : ℚ) + r * 20⌋
        qualityImpactDescription := "Potential minor reduction via re-optimization." }
  else if isLosslessImageType lowerCaseType then
    { shouldCompress := true
      recommendedMethod := RecommendedMethod.lossless_optimized
      estimatedReductionPercent := Option.some ⌊(20 : ℚ) + r * 40⌋
      qualityImpactDescription := "Good candidate for lossless optimization." }
  else if isLosslessAudioType lowerCaseType then
    { shouldCompress := true
      recommendedMethod := RecommendedMethod.lossless_optimized
      estimatedReductionPercent := Option.some ⌊(40 : ℚ) + r * 30⌋
      qualityImpactDescription := "Significant savings via lossless audio codec (e.g., FLAC)." }
  else if isTextLikeType lowerCaseType then
    { shouldCompress := true
      recommendedMethod := RecommendedMethod.lossless_optimized
      estimatedReductionPercent := Option.some ⌊(60 : ℚ) + r * 30⌋
      qualityImpactDescription := "Highly compressible with no quality loss." }
  else
    { shouldCompress := true
      recommendedMethod :=
        if fileSize > 20 * 1024 * 1024 then RecommendedMethod.lossy_balanced
        else RecommendedMethod.lossless_optimized
      estimatedReductionPercent := Option.some ⌊(30 : ℚ) + r * 40⌋
      qualityImpactDescription := "Compression viable, potential quality trade-off depending on content." }

/-- Documented reduction band of the spec's decision table (section 4.1) for a
MIME type, written from the spec's words for comparison with the classifier's
jittered output. -/
def specBand (fileType : String) : ℤ × ℤ :=
  let t := toLowerString fileType
  if isPreCompressedType t then (5, 25)
  else if isLosslessImageType t then (20, 60)
  else if isLosslessAudioType t then (40, 70)
  else if isTextLikeType t then (60, 90)
  else (30, 70)

/-- Structural validity of an advice value, as the spec's output contract
states it: `none` exactly when not compressing, percent present exactly when
some method is recommended, and any present percent within `[0,100]`. -/
def validAdvice (a : CompressionAdvice) : Prop :=
  (a.recommendedMethod = RecommendedMethod.none ↔ a.shouldCompress = false) ∧
  (a.estimatedReductionPercent.isSome = true ↔
    a.recommendedMethod ≠ RecommendedMethod.none) ∧
  ∀ p : ℤ, a.estimatedReductionPercent = Option.some p → 0 ≤ p ∧ p ≤ 100

section BranchLemmas

/-- Jitter bound: for a draw `r ∈ [0,1)`, `⌊a + r·w⌋` lies in `[a, a+w)`. -/
lemma floor_jitter_bounds (a w : ℤ) (r : ℚ) (h0 : 0 ≤ r) (h1 : r < 1)
    (hw : 0 < w) :
    a ≤ ⌊(a : ℚ) + r * (w : ℚ)⌋ ∧ ⌊(a : ℚ) + r * (w : ℚ)⌋ < a + w := by
  constructor
  · apply Int.le_floor.mpr
    have hrw : 0 ≤ r * (w : ℚ) := by positivity
    linarith
  · apply Int.floor_lt.mpr
    have hww : (0 : ℚ) < (w : ℚ) := by exact_mod_cast hw
    have hrw : r * (w : ℚ) < (w : ℚ) := by nlinarith
    push_cast
    linarith

/-- Branch value: first row, small-file override. -/
lemma analyzeFile_row1_small (n t : String) (s : ℕ) (r : ℚ)
    (h : isPreCompressedType (toLowerString t) = true) (hs : s < 1024 * 200) :
    analyzeFile n s t r =
      { shouldCompress := false
        recommendedMethod := RecommendedMethod.none
        estimatedReductionPercent := Option.none
        qualityImpactDescription := "Likely already efficiently compressed." } := by
  unfold analyzeFile
  simp [h, hs]

/-- Branch value: first row, size at least 200KB. -/
lemma analyzeFile_row1_large (n t : String) (s : ℕ) (r : ℚ)
    (h : isPreCompressedType (toLowerString t) = true) (hs : ¬ s < 1024 * 200) :
    analyzeFile n s t r =
      { shouldCompress := true
        recommendedMethod :=
          if s > 10 * 1024 * 1024 then RecommendedMethod.lossy_high_quality
          else RecommendedMethod.lossless_optimized
        estimatedReductionPercent := Option.some ⌊(5 : ℚ) + r * 20⌋
        qualityImpactDescription := "Potential minor reduction via re-optimization." } := by
  unfold analyzeFile
  simp [h, hs]

/-- Branch value: second row (lossless images). -/
lemma analyzeFile_row2 (n t : String) (s : ℕ) (r : ℚ)
    (h1 : isPreCompressedType (toLowerString t) = false)
    (h2 : isLosslessImageType (toLowerString t) = true) :
    analyzeFile n s t r =
      { shouldCompress := true
        recommendedMethod := RecommendedMethod.lossless_optimized
        estimatedReductionPercent := Option.some ⌊(20 : ℚ) + r * 40⌋
        qualityImpactDescription := "Good candidate for lossless optimization." } := by
  unfold analyzeFile
  simp [h1, h2]

/-- Branch value: third row (uncompressed audio). -/
lemma analyzeFile_row3 (n t : String) (s : ℕ) (r : ℚ)
    (h1 : isPreCompressedType (toLowerString t) = false)
    (h2 : isLosslessImageType (toLowerString t) = false)
    (h3 : isLosslessAudioType (toLowerString t) = true) :
    analyzeFile n s t r =
      { shouldCompress := true
        recommendedMethod := RecommendedMethod.lossless_optimized
        estimatedReductionPercent := Option.some ⌊(40 : ℚ) + r * 30⌋
        qualityImpactDescription := "Significant savings via lossless audio codec (e.g., FLAC)." } := by
  unfold analyzeFile
  simp [h1, h2, h3]

/-- Branch value: fourth row (text-like). -/
lemma analyzeFile_row4 (n t : String) (s : ℕ) (r : ℚ)
    (h1 : isPreCompressedType (toLowerString t) = false)
    (h2 : isLosslessImageType (toLowerString t) = false)
    (h3 : isLosslessAudioType (toLowerString t) = false)
    (h4 : isTextLikeType (toLowerString t) = true) :
    analyzeFile n s t r =
      { shouldCompress := true
        recommendedMethod := RecommendedMethod.lossless_optimized
        estimatedReductionPercent := Option.some ⌊(60 : ℚ) + r * 30⌋
        qualityImpactDescription := "Highly compressible with no quality loss." } := by
  unfold analyzeFile
  simp [h1, h2, h3, h4]

/-- Branch value: default bucket. -/
lemma analyzeFile_default (n t : String) (s : ℕ) (r : ℚ)
    (h1 : isPreCompressedType (toLowerString t) = false)
    (h2 : isLosslessImageType (toLowerString t) = false)
    (h3 : isLosslessAudioType (toLowerString t) = false)
    (h4 : isTextLikeType (toLowerString t) = false) :
    analyzeFile n s t r =
      { shouldCompress := true
        recommendedMethod :=
          if s > 20 * 1024 * 1024 then RecommendedMethod.lossy_balanced
          else RecommendedMethod.lossless_optimized
        estimatedReductionPercent := Option.some ⌊(30 : ℚ) + r * 40⌋
        qualityImpactDescription := "Compression viable, potential quality trade-off depending on content." } := by
  unfold analyzeFile
  simp [h1, h2, h3, h4]

end BranchLemmas

/-- Case analysis on the classifier: a property of its output follows from its
value on each of the six reachable branches. -/
lemma analyzeFile_elim (P : CompressionAdvice → Prop) (n t : String) (s : ℕ) (r : ℚ)
    (c1 : isPreCompressedType (toLowerString t) = true → s < 1024 * 200 →
      P { shouldCompress := false
          recommendedMethod := RecommendedMethod.none
          estimatedReductionPercent := Option.none
          qualityImpactDescription := "Likely already efficiently compressed." })
    (c2 : isPreCompressedType (toLowerString t) = true → ¬ s < 1024 * 200 →
      P { shouldCompress := true
          recommendedMethod :=
            if s > 10 * 1024 * 1024 then RecommendedMethod.lossy_high_quality
            else RecommendedMethod.lossless_optimized
          estimatedReductionPercent := Option.some ⌊(5 : ℚ) + r * 20⌋
          qualityImpactDescription := "Potential minor reduction via re-optimization." })
    (c3 : isPreCompressedType (toLowerString t) = false → isLosslessImageType (toLowerString t) = true →
      P { shouldCompress := true
          recommendedMethod := RecommendedMethod.lossless_optimized
          estimatedReductionPercent := Option.some ⌊(20 : ℚ) + r * 40⌋
          qualityImpactDescription := "Good candidate for lossless optimization." })
    (c4 : isPreCompressedType (toLowerString t) = false → isLosslessImageType (toLowerString t) = false →
      isLosslessAudioType (toLowerString t) = true →
      P { shouldCompress := true
          recommendedMethod := RecommendedMethod.lossless_optimized
          estimatedReductionPercent := Option.some ⌊(40 : ℚ) + r * 30⌋
          qualityImpactDescription := "Significant savings via lossless audio codec (e.g., FLAC)." })
    (c5 : isPreCompressedType (toLowerString t) = false → isLosslessImageType (toLowerString t) = false →
      isLosslessAudioType (toLowerString t) = false → isTextLikeType (toLowerString t) = true →
      P { shouldCompress := true
          recommendedMethod := RecommendedMethod.lossless_optimized
          estimatedReductionPercent := Option.some ⌊(60 : ℚ) + r * 30⌋
          qualityImpactDescription := "Highly compressible with no quality loss." })
    (c6 : isPreCompressedType (toLowerString t) = false → isLosslessImageType (toLowerString t) = false →
      isLosslessAudioType (toLowerString t) = false → isTextLikeType (toLowerString t) = false →
      P { shouldCompress := true
          recommendedMethod :=
            if s > 20 * 1024 * 1024 then RecommendedMethod.lossy_balanced
            else RecommendedMethod.lossless_optimized
          estimatedReductionPercent := Option.some ⌊(30 : ℚ) + r * 40⌋
          qualityImpactDescription := "Compression viable, potential quality trade-off depending on content." }) :
    P (analyzeFile n s t r) := by
  by_cases h1 : isPreCompressedType (toLowerString t) = true
  · by_cases hs : s < 1024 * 200
    · rw [analyzeFile_row1_small n t s r h1 hs]; exact c1 h1 hs
    · rw [analyzeFile_row1_large n t s r h1 hs]; exact c2 h1 hs
  · rw [Bool.not_eq_true] at h1
    by_cases h2 : isLosslessImageType (toLowerString t) = true
    · rw [analyzeFile_row2 n t s r h1 h2]; exact c3 h1 h2
    · rw [Bool.not_eq_true] at h2
      by_cases h3 : isLosslessAudioType (toLowerString t) = true
      · rw [analyzeFile_row3 n t s r h1 h2 h3]; exact c4 h1 h2 h3
      · rw [Bool.not_eq_true] at h3
        by_cases h4 : isTextLikeType (toLowerString t) = true
        · rw [analyzeFile_row4 n t s r h1 h2 h3 h4]; exact c5 h1 h2 h3 h4
        · rw [Bool.not_eq_true] at h4
          rw [analyzeFile_default n t s r h1 h2 h3 h4]; exact c6 h1 h2 h3 h4

/-- C1: for every FileDescriptor, the classifier recommends `none` exactly
when it says not to compress. -/
theorem claim_C1 (fileName fileType : String) (fileSize : ℕ) (r : ℚ) :
    (analyzeFile fileName fileSize fileType r).recommendedMethod =
        RecommendedMethod.none ↔
      (analyzeFile fileName fileSize fileType r).shouldCompress = false := by
  refine analyzeFile_elim
    (fun a => a.recommendedMethod = RecommendedMethod.none ↔ a.shouldCompress = false)
    fileName fileType fileSize r ?_ ?_ ?_ ?_ ?_ ?_ <;> intros <;> dsimp only <;>
    (try split) <;> simp

/-- Floor of a jittered value stays in a band: if `r ∈ [0,1)`, `lo ≤ a` and
`a + w ≤ hi + 1`, then `⌊a + r·w⌋ ∈ [lo, hi]`. -/
lemma floor_jitter_mem (a w : ℚ) (lo hi : ℤ) (r : ℚ) (h0 : 0 ≤ r) (h1 : r < 1)
    (hw : 0 < w) (hlo : (lo : ℚ) ≤ a) (hhi : a + w ≤ (hi : ℚ) + 1) :
    lo ≤ ⌊a + r * w⌋ ∧ ⌊a + r * w⌋ ≤ hi := by
  constructor
  · apply Int.le_floor.mpr
    nlinarith
  · have h2 : ⌊a + r * w⌋ < hi + 1 := by
      apply Int.floor_lt.mpr
      push_cast
      nlinarith
    omega

/-- C2: the estimated reduction is present exactly when a method other than
`none` is recommended, and any present value lies in `[0,100]`. -/
theorem claim_C2 (fileName fileType : String) (fileSize : ℕ) (r : ℚ)
    (h0 : 0 ≤ r) (hr : r < 1) :
    ((analyzeFile fileName fileSize fileType r).estimatedReductionPercent.isSome = true ↔
      (analyzeFile fileName fileSize fileType r).recommendedMethod ≠ RecommendedMethod.none) ∧
    ∀ p : ℤ,
      (analyzeFile fileName fileSize fileType r).estimatedReductionPercent = Option.some p →
      0 ≤ p ∧ p ≤ 100 := by
  refine analyzeFile_elim
    (fun a => (a.estimatedReductionPercent.isSome = true ↔
        a.recommendedMethod ≠ RecommendedMethod.none) ∧
      ∀ p : ℤ, a.estimatedReductionPercent = Option.some p → 0 ≤ p ∧ p ≤ 100)
    fileName fileType fileSize r ?_ ?_ ?_ ?_ ?_ ?_
  · intro _ _
    exact ⟨by simp, by simp⟩
  · intro _ _
    refine ⟨by dsimp only; split <;> simp, ?_⟩
    intro p hp
    simp only [Option.some.injEq] at hp
    subst hp
    exact floor_jitter_mem 5 20 0 100 r h0 hr (by norm_num) (by norm_num) (by norm_num)
  · intro _ _
    refine ⟨by simp, ?_⟩
    intro p hp
    simp only [Option.some.injEq] at hp
    subst hp
    exact floor_jitter_mem 20 40 0 100 r h0 hr (by norm_num) (by norm_num) (by norm_num)
  · intro _ _ _
    refine ⟨by simp, ?_⟩
    intro p hp
    simp only [Option.some.injEq] at hp
    subst hp
    exact floor_jitter_mem 40 30 0 100 r h0 hr (by norm_num) (by norm_num) (by norm_num)
  · intro _ _ _ _
    refine ⟨by simp, ?_⟩
    intro p hp
    simp only [Option.some.injEq] at hp
    subst hp
    exact floor_jitter_mem 60 30 0 100 r h0 hr (by norm_num) (by norm_num) (by norm_num)
  · intro _ _ _ _
    refine ⟨by dsimp only; split <;> simp, ?_⟩
    intro p hp
    simp only [Option.some.injEq] at hp
    subst hp
    exact floor_jitter_mem 30 40 0 100 r h0 hr (by norm_num) (by norm_num) (by norm_num)

/-- Witness for C2 at a concrete input. -/
theorem claim_C2_witness :
    ((analyzeFile "a" 500 "image/png" 0).estimatedReductionPercent.isSome = true ↔
      (analyzeFile "a" 500 "image/png" 0).recommendedMethod ≠ RecommendedMethod.none) ∧
    ∀ p : ℤ,
      (analyzeFile "a" 500 "image/png" 0).estimatedReductionPercent = Option.some p →
      0 ≤ p ∧ p ≤ 100 :=
  claim_C2 "a" "image/png" 500 0 (le_refl 0) zero_lt_one

/-- C3: a small (under 200KB) jpeg gets exactly no-compress advice: method
`none`, `shouldCompress = false`, and no estimated reduction. -/
theorem claim_C3 (fileName fileType : String) (fileSize : ℕ) (r : ℚ)
    (hjpeg : strIncludes (toLowerString fileType) "jpeg" = true)
    (hsize : fileSize < 200 * 1024) :
    (analyzeFile fileName fileSize fileType r).shouldCompress = false ∧
    (analyzeFile fileName fileSize fileType r).recommendedMethod = RecommendedMethod.none ∧
    (analyzeFile fileName fileSize fileType r).estimatedReductionPercent = Option.none := by
  have h1 : isPreCompressedType (toLowerString fileType) = true := by
    unfold isPreCompressedType
    rw [hjpeg]
    simp
  have hs : fileSize < 1024 * 200 := by omega
  rw [analyzeFile_row1_small fileName fileType fileSize r h1 hs]
  exact ⟨rfl, rfl, rfl⟩

/-- Witness for C3 at the spec's end-to-end scenario 3. -/
theorem claim_C3_witness :
    (analyzeFile "c.jpg" (50 * 1024) "image/jpeg" 0).shouldCompress = false ∧
    (analyzeFile "c.jpg" (50 * 1024) "image/jpeg" 0).recommendedMethod =
      RecommendedMethod.none ∧
    (analyzeFile "c.jpg" (50 * 1024) "image/jpeg" 0).estimatedReductionPercent =
      Option.none :=
  claim_C3 "c.jpg" "image/jpeg" (50 * 1024) 0 (by decide) (by decide)

/-- C4: an already-compressed type at 200KB or more gets
`lossy_high_quality` above 10MB and `lossless_optimized` otherwise, with an
estimated reduction in `[5,25]`. -/
theorem claim_C4 (fileName fileType : String) (fileSize : ℕ) (r : ℚ)
    (hty : isPreCompressedType (toLowerString fileType) = true)
    (hsize : 200 * 1024 ≤ fileSize) (h0 : 0 ≤ r) (hr : r < 1) :
    (analyzeFile fileName fileSize fileType r).recommendedMethod =
      (if fileSize > 10 * 1024 * 1024 then RecommendedMethod.lossy_high_quality
       else RecommendedMethod.lossless_optimized) ∧
    ∃ p : ℤ,
      (analyzeFile fileName fileSize fileType r).estimatedReductionPercent = Option.some p ∧
      5 ≤ p ∧ p ≤ 25 := by
  have hs : ¬ fileSize < 1024 * 200 := by omega
  rw [analyzeFile_row1_large fileName fileType fileSize r hty hs]
  exact ⟨rfl, ⟨⌊(5 : ℚ) + r * 20⌋, rfl,
    floor_jitter_mem 5 20 5 25 r h0 hr (by norm_num) (by norm_num) (by norm_num)⟩⟩

/-- Witness for C4 at a 50MB mp4. -/
theorem claim_C4_witness :
    (analyzeFile "v.mp4" (50 * 1024 * 1024) "video/mp4" 0).recommendedMethod =
      (if (50 * 1024 * 1024 : ℕ) > 10 * 1024 * 1024 then RecommendedMethod.lossy_high_quality
       else RecommendedMethod.lossless_optimized) ∧
    ∃ p : ℤ,
      (analyzeFile "v.mp4" (50 * 1024 * 1024) "video/mp4" 0).estimatedReductionPercent =
        Option.some p ∧
      5 ≤ p ∧ p ≤ 25 :=
  claim_C4 "v.mp4" "video/mp4" (50 * 1024 * 1024) 0 (by decide) (by decide)
    (le_refl 0) zero_lt_one

/-- C5: a lossless image type not caught by the first row gets
`lossless_optimized` with an estimated reduction in `[20,60]`. -/
theorem claim_C5 (fileName fileType : String) (fileSize : ℕ) (r : ℚ)
    (hrow1 : isPreCompressedType (toLowerString fileType) = false)
    (hty : isLosslessImageType (toLowerString fileType) = true)
    (hpos : 0 < fileSize) (h0 : 0 ≤ r) (hr : r < 1) :
    (analyzeFile fileName fileSize fileType r).recommendedMethod =
      RecommendedMethod.lossless_optimized ∧
    ∃ p : ℤ,
      (analyzeFile fileName fileSize fileType r).estimatedReductionPercent = Option.some p ∧
      20 ≤ p ∧ p ≤ 60 := by
  rw [analyzeFile_row2 fileName fileType fileSize r hrow1 hty]
  exact ⟨rfl, ⟨⌊(20 : ℚ) + r * 40⌋, rfl,
    floor_jitter_mem 20 40 20 60 r h0 hr (by norm_num) (by norm_num) (by norm_num)⟩⟩

/-- Witness for C5 at a 1-byte png. -/
theorem claim_C5_witness :
    (analyzeFile "logo.png" 1 "image/png" 0).recommendedMethod =
      RecommendedMethod.lossless_optimized ∧
    ∃ p : ℤ,
      (analyzeFile "logo.png" 1 "image/png" 0).estimatedReductionPercent = Option.some p ∧
      20 ≤ p ∧ p ≤ 60 :=
  claim_C5 "logo.png" "image/png" 1 0 (by decide) (by decide) (by decide)
    (le_refl 0) zero_lt_one

/-- C6: two runs on the same input agree on `shouldCompress`,
`recommendedMethod` and `qualityImpactDescription`; only the estimated
reduction may differ, and any produced value lies in the documented band for
the input's type. -/
theorem claim_C6 (fileName fileType : String) (fileSize : ℕ) (r₁ r₂ : ℚ)
    (ha0 : 0 ≤ r₁) (ha1 : r₁ < 1) (hb0 : 0 ≤ r₂) (hb1 : r₂ < 1) :
    (analyzeFile fileName fileSize fileType r₁).shouldCompress =
      (analyzeFile fileName fileSize fileType r₂).shouldCompress ∧
    (analyzeFile fileName fileSize fileType r₁).recommendedMethod =
      (analyzeFile fileName fileSize fileType r₂).recommendedMethod ∧
    (analyzeFile fileName fileSize fileType r₁).qualityImpactDescription =
      (analyzeFile fileName fileSize fileType r₂).qualityImpactDescription ∧
    ∀ p : ℤ,
      ((analyzeFile fileName fileSize fileType r₁).estimatedReductionPercent =
          Option.some p ∨
        (analyzeFile fileName fileSize fileType r₂).estimatedReductionPercent =
          Option.some p) →
      (specBand fileType).1 ≤ p ∧ p ≤ (specBand fileType).2 := by
  by_cases h1 : isPreCompressedType (toLowerString fileType) = true
  · have hband : specBand fileType = (5, 25) := by
      unfold specBand
      simp [h1]
    by_cases hs : fileSize < 1024 * 200
    · rw [analyzeFile_row1_small fileName fileType fileSize r₁ h1 hs,
          analyzeFile_row1_small fileName fileType fileSize r₂ h1 hs]
      refine ⟨rfl, rfl, rfl, ?_⟩
      intro p hp
      rcases hp with hp | hp <;> simp at hp
    · rw [analyzeFile_row1_large fileName fileType fileSize r₁ h1 hs,
          analyzeFile_row1_large fileName fileType fileSize r₂ h1 hs]
      refine ⟨rfl, rfl, rfl, ?_⟩
      rw [hband]
      intro p hp
      rcases hp with hp | hp <;> simp only [Option.some.injEq] at hp <;> subst hp
      · exact floor_jitter_mem 5 20 5 25 r₁ ha0 ha1 (by norm_num) (by norm_num) (by norm_num)
      · exact floor_jitter_mem 5 20 5 25 r₂ hb0 hb1 (by norm_num) (by norm_num) (by norm_num)
  · rw [Bool.not_eq_true] at h1
    by_cases h2 : isLosslessImageType (toLowerString fileType) = true
    · have hband : specBand fileType = (20, 60) := by
        unfold specBand
        simp [h1, h2]
      rw [analyzeFile_row2 fileName fileType fileSize r₁ h1 h2,
          analyzeFile_row2 fileName fileType fileSize r₂ h1 h2]
      refine ⟨rfl, rfl, rfl, ?_⟩
      rw [hband]
      intro p hp
      rcases hp with hp | hp <;> simp only [Option.some.injEq] at hp <;> subst hp
      · exact floor_jitter_mem 20 40 20 60 r₁ ha0 ha1 (by norm_num) (by norm_num) (by norm_num)
      · exact floor_jitter_mem 20 40 20 60 r₂ hb0 hb1 (by norm_num) (by norm_num) (by norm_num)
    · rw [Bool.not_eq_true] at h2
      by_cases h3 : isLosslessAudioType (toLowerString fileType) = true
      · have hband : specBand fileType = (40, 70) := by
          unfold specBand
          simp [h1, h2, h3]
        rw [analyzeFile_row3 fileName fileType fileSize r₁ h1 h2 h3,
            analyzeFile_row3 fileName fileType fileSize r₂ h1 h2 h3]
        refine ⟨rfl, rfl, rfl, ?_⟩
        rw [hband]
        intro p hp
        rcases hp with hp | hp <;> simp only [Option.some.injEq] at hp <;> subst hp
        · exact floor_jitter_mem 40 30 40 70 r₁ ha0 ha1 (by norm_num) (by norm_num) (by norm_num)
        · exact floor_jitter_mem 40 30 40 70 r₂ hb0 hb1 (by norm_num) (by norm_num) (by norm_num)
      · rw [Bool.not_eq_true] at h3
        by_cases h4 : isTextLikeType (toLowerString fileType) = true
        · have hband : specBand fileType = (60, 90) := by
            unfold specBand
            simp [h1, h2, h3, h4]
          rw [analyzeFile_row4 fileName fileType fileSize r₁ h1 h2 h3 h4,
              analyzeFile_row4 fileName fileType fileSize r₂ h1 h2 h3 h4]
          refine ⟨rfl, rfl, rfl, ?_⟩
          rw [hband]
          intro p hp
          rcases hp with hp | hp <;> simp only [Option.some.injEq] at hp <;> subst hp
          · exact floor_jitter_mem 60 30 60 90 r₁ ha0 ha1 (by norm_num) (by norm_num) (by norm_num)
          · exact floor_jitter_mem 60 30 60 90 r₂ hb0 hb1 (by norm_num) (by norm_num) (by norm_num)
        · rw [Bool.not_eq_true] at h4
          have hband : specBand fileType = (30, 70) := by
            unfold specBand
            simp [h1, h2, h3, h4]
          rw [analyzeFile_default fileName fileType fileSize r₁ h1 h2 h3 h4,
              analyzeFile_default fileName fileType fileSize r₂ h1 h2 h3 h4]
          refine ⟨rfl, rfl, rfl, ?_⟩
          rw [hband]
          intro p hp
          rcases hp with hp | hp <;> simp only [Option.some.injEq] at hp <;> subst hp
          · exact floor_jitter_mem 30 40 30 70 r₁ ha0 ha1 (by norm_num) (by norm_num) (by norm_num)
          · exact floor_jitter_mem 30 40 30 70 r₂ hb0 hb1 (by norm_num) (by norm_num) (by norm_num)

/-- Witness for C6 at a text file, two (equal-bound) draws. -/
theorem claim_C6_witness :
    (analyzeFile "a.txt" 100 "text/plain" 0).shouldCompress =
      (analyzeFile "a.txt" 100 "text/plain" 0).shouldCompress ∧
    (analyzeFile "a.txt" 100 "text/plain" 0).recommendedMethod =
      (analyzeFile "a.txt" 100 "text/plain" 0).recommendedMethod ∧
    (analyzeFile "a.txt" 100 "text/plain" 0).qualityImpactDescription =
      (analyzeFile "a.txt" 100 "text/plain" 0).qualityImpactDescription ∧
    ∀ p : ℤ,
      ((analyzeFile "a.txt" 100 "text/plain" 0).estimatedReductionPercent =
          Option.some p ∨
        (analyzeFile "a.txt" 100 "text/plain" 0).estimatedReductionPercent =
          Option.some p) →
      (specBand "text/plain").1 ≤ p ∧ p ≤ (specBand "text/plain").2 :=
  claim_C6 "a.txt" "text/plain" 100 0 0 (le_refl 0) zero_lt_one (le_refl 0) zero_lt_one

/-- C7: the default bucket advises compressing, `lossy_balanced` above 20MB
and `lossless_optimized` otherwise, with an estimated reduction in
`[30,70]`. -/
theorem claim_C7 (fileName fileType : String) (fileSize : ℕ) (r : ℚ)
    (h1 : isPreCompressedType (toLowerString fileType) = false)
    (h2 : isLosslessImageType (toLowerString fileType) = false)
    (h3 : isLosslessAudioType (toLowerString fileType) = false)
    (h4 : isTextLikeType (toLowerString fileType) = false)
    (h0 : 0 ≤ r) (hr : r < 1) :
    (analyzeFile fileName fileSize fileType r).shouldCompress = true ∧
    (analyzeFile fileName fileSize fileType r).recommendedMethod =
      (if fileSize > 20 * 1024 * 1024 then RecommendedMethod.lossy_balanced
       else RecommendedMethod.lossless_optimized) ∧
    ∃ p : ℤ,
      (analyzeFile fileName fileSize fileType r).estimatedReductionPercent = Option.some p ∧
      30 ≤ p ∧ p ≤ 70 := by
  rw [analyzeFile_default fileName fileType fileSize r h1 h2 h3 h4]
  exact ⟨rfl, rfl, ⟨⌊(30 : ℚ) + r * 40⌋, rfl,
    floor_jitter_mem 30 40 30 70 r h0 hr (by norm_num) (by norm_num) (by norm_num)⟩⟩

/-- Witness for C7 at the spec's end-to-end scenario 4 (25MB octet-stream). -/
theorem claim_C7_witness :
    (analyzeFile "d.bin" (25 * 1024 * 1024) "application/octet-stream" 0).shouldCompress =
      true ∧
    (analyzeFile "d.bin" (25 * 1024 * 1024) "application/octet-stream" 0).recommendedMethod =
      (if (25 * 1024 * 1024 : ℕ) > 20 * 1024 * 1024 then RecommendedMethod.lossy_balanced
       else RecommendedMethod.lossless_optimized) ∧
    ∃ p : ℤ,
      (analyzeFile "d.bin" (25 * 1024 * 1024) "application/octet-stream"
          0).estimatedReductionPercent = Option.some p ∧
      30 ≤ p ∧ p ≤ 70 :=
  claim_C7 "d.bin" "application/octet-stream" (25 * 1024 * 1024) 0
    (by decide) (by decide) (by decide) (by decide) (le_refl 0) zero_lt_one

/-- C8: uncompressed audio (wav/aiff) not caught by earlier rows gets
`lossless_optimized` with reduction in `[40,70]`; text-like types not caught
by earlier rows get `lossless_optimized`, `shouldCompress = true`, and
reduction in `[60,90]`. -/
theorem claim_C8 (fileName fileType : String) (fileSize : ℕ) (r : ℚ)
    (h0 : 0 ≤ r) (hr : r < 1) :
    (isPreCompressedType (toLowerString fileType) = false →
      isLosslessImageType (toLowerString fileType) = false →
      isLosslessAudioType (toLowerString fileType) = true →
      (analyzeFile fileName fileSize fileType r).recommendedMethod =
        RecommendedMethod.lossless_optimized ∧
      ∃ p : ℤ,
        (analyzeFile fileName fileSize fileType r).estimatedReductionPercent =
          Option.some p ∧
        40 ≤ p ∧ p ≤ 70) ∧
    (isPreCompressedType (toLowerString fileType) = false →
      isLosslessImageType (toLowerString fileType) = false →
      isLosslessAudioType (toLowerString fileType) = false →
      isTextLikeType (toLowerString fileType) = true →
      (analyzeFile fileName fileSize fileType r).recommendedMethod =
        RecommendedMethod.lossless_optimized ∧
      (analyzeFile fileName fileSize fileType r).shouldCompress = true ∧
      ∃ p : ℤ,
        (analyzeFile fileName fileSize fileType r).estimatedReductionPercent =
          Option.some p ∧
        60 ≤ p ∧ p ≤ 90) := by
  constructor
  · intro h1 h2 h3
    rw [analyzeFile_row3 fileName fileType fileSize r h1 h2 h3]
    exact ⟨rfl, ⟨⌊(40 : ℚ) + r * 30⌋, rfl,
      floor_jitter_mem 40 30 40 70 r h0 hr (by norm_num) (by norm_num) (by norm_num)⟩⟩
  · intro h1 h2 h3 h4
    rw [analyzeFile_row4 fileName fileType fileSize r h1 h2 h3 h4]
    exact ⟨rfl, rfl, ⟨⌊(60 : ℚ) + r * 30⌋, rfl,
      floor_jitter_mem 60 30 60 90 r h0 hr (by norm_num) (by norm_num) (by norm_num)⟩⟩

/-- Witness for C8 at the spec's end-to-end scenarios 2 (wav) and 1 (text). -/
theorem claim_C8_witness :
    ((analyzeFile "b.wav" (300 * 1024 * 1024) "audio/wav" 0).recommendedMethod =
        RecommendedMethod.lossless_optimized ∧
      ∃ p : ℤ,
        (analyzeFile "b.wav" (300 * 1024 * 1024) "audio/wav" 0).estimatedReductionPercent =
          Option.some p ∧
        40 ≤ p ∧ p ≤ 70) ∧
    ((analyzeFile "a.txt" (20 * 1024 * 1024) "text/plain" 0).recommendedMethod =
        RecommendedMethod.lossless_optimized ∧
      (analyzeFile "a.txt" (20 * 1024 * 1024) "text/plain" 0).shouldCompress = true ∧
      ∃ p : ℤ,
        (analyzeFile "a.txt" (20 * 1024 * 1024) "text/plain" 0).estimatedReductionPercent =
          Option.some p ∧
        60 ≤ p ∧ p ≤ 90) :=
  ⟨(claim_C8 "b.wav" "audio/wav" (300 * 1024 * 1024) 0 (le_refl 0) zero_lt_one).1
      (by decide) (by decide) (by decide),
   (claim_C8 "a.txt" "text/plain" (20 * 1024 * 1024) 0 (le_refl 0) zero_lt_one).2
      (by decide) (by decide) (by decide) (by decide)⟩

/-- Every classifier output is a structurally valid advice. -/
lemma analyzeFile_valid (n t : String) (s : ℕ) (r : ℚ) (h0 : 0 ≤ r)
    (hr : r < 1) :
    validAdvice (analyzeFile n s t r) := by
  refine analyzeFile_elim validAdvice n t s r ?_ ?_ ?_ ?_ ?_ ?_
  · intro _ _
    exact ⟨by simp, by simp, by simp⟩
  · intro _ _
    refine ⟨by dsimp only; split <;> simp, by dsimp only; split <;> simp, ?_⟩
    intro p hp
    simp only [Option.some.injEq] at hp
    subst hp
    exact floor_jitter_mem 5 20 0 100 r h0 hr (by norm_num) (by norm_num) (by norm_num)
  · intro _ _
    refine ⟨by simp, by simp, ?_⟩
    intro p hp
    simp only [Option.some.injEq] at hp
    subst hp
    exact floor_jitter_mem 20 40 0 100 r h0 hr (by norm_num) (by norm_num) (by norm_num)
  · intro _ _ _
    refine ⟨by simp, by simp, ?_⟩
    intro p hp
    simp only [Option.some.injEq] at hp
    subst hp
    exact floor_jitter_mem 40 30 0 100 r h0 hr (by norm_num) (by norm_num) (by norm_num)
  · intro _ _ _ _
    refine ⟨by simp, by simp, ?_⟩
    intro p hp
    simp only [Option.some.injEq] at hp
    subst hp
    exact floor_jitter_mem 60 30 0 100 r h0 hr (by norm_num) (by norm_num) (by norm_num)
  · intro _ _ _ _
    refine ⟨by dsimp only; split <;> simp, by dsimp only; split <;> simp, ?_⟩
    intro p hp
    simp only [Option.some.injEq] at hp
    subst hp
    exact floor_jitter_mem 30 40 0 100 r h0 hr (by norm_num) (by norm_num) (by norm_num)

/-- C9: the classifier is total — every input, the empty MIME type included,
yields a structurally valid advice; the empty MIME type lands in the default
bucket. -/
theorem claim_C9 (fileName : String) (fileSize : ℕ) (r : ℚ) (h0 : 0 ≤ r)
    (hr : r < 1) :
    (∀ fileType : String, validAdvice (analyzeFile fileName fileSize fileType r)) ∧
    (analyzeFile fileName fileSize "" r).recommendedMethod =
      (if fileSize > 20 * 1024 * 1024 then RecommendedMethod.lossy_balanced
       else RecommendedMethod.lossless_optimized) := by
  constructor
  · intro fileType
    exact analyzeFile_valid fileName fileType fileSize r h0 hr
  · have e1 : isPreCompressedType (toLowerString "") = false := by decide
    have e2 : isLosslessImageType (toLowerString "") = false := by decide
    have e3 : isLosslessAudioType (toLowerString "") = false := by decide
    have e4 : isTextLikeType (toLowerString "") = false := by decide
    rw [analyzeFile_default fileName "" fileSize r e1 e2 e3 e4]

/-- Witness for C9 at a concrete input. -/
theorem claim_C9_witness :
    validAdvice (analyzeFile "x" 0 "application/pdf" 0) ∧
    (analyzeFile "x" 0 "" 0).recommendedMethod =
      (if (0 : ℕ) > 20 * 1024 * 1024 then RecommendedMethod.lossy_balanced
       else RecommendedMethod.lossless_optimized) :=
  ⟨(claim_C9 "x" 0 0 (le_refl 0) zero_lt_one).1 "application/pdf",
   (claim_C9 "x" 0 0 (le_refl 0) zero_lt_one).2⟩

/-- The `FileInfo` record of `src/services/file-system.ts`.  Sizes are
rationals because one mock entry's size (`1.2 * 1024 * 1024 * 1024`) is not an
integer. -/
structure FileInfo where
  name : String
  size : ℚ
  type : String
  path : String
deriving DecidableEq, Repr

/-- The mock listing returned by `getFiles`
(`src/services/file-system.ts`, lines 36-81). -/
def getFiles : List FileInfo :=
  [ { name := "Annual Report 2023.pdf", size := 12 * 1024 * 1024,
      type := "document/pdf", path := "/cloud/documents/Annual Report 2023.pdf" },
    { name := "project_backup.zip", size := 250 * 1024 * 1024,
      type := "archive/zip", path := "/local/backups/project_backup.zip" },
    { name := "IMG_0012.JPG", size := 6 * 1024 * 1024,
      type := "image/jpeg", path := "/cloud/photos/IMG_0012.JPG" },
    { name := "Family Vacation.mov", size := (1.2 : ℚ) * 1024 * 1024 * 1024,
      type := "video/quicktime", path := "/cloud/videos/Family Vacation.mov" },
    { name := "Presentation_Draft.pptx", size := 35 * 1024 * 1024,
      type := "document/presentation",
      path := "/cloud/work/Presentations/Presentation_Draft.pptx" },
    { name := "logo_final_v3.png", size := (1.5 : ℚ) * 1024 * 1024,
      type := "image/png", path := "/local/design/logo_final_v3.png" },
    { name := "podcast_episode_raw.wav", size := 300 * 1024 * 1024,
      type := "audio/wav", path := "/local/audio/podcast_episode_raw.wav" } ]

/-- Model of `path.split('/').pop() || 'unknown_file'` in `getFile`: the last
`/`-separated segment, or `"unknown_file"` when that segment is empty
(JavaScript treats the empty string as falsy; `split` never yields an empty
array). -/
def defaultMockName (path : String) : String :=
  match (path.splitOn "/").getLast? with
  | Option.some s => if s = "" then "unknown_file" else s
  | Option.none => "unknown_file"

/-- The `getFile` lookup (`src/services/file-system.ts`, lines 90-114): find
the mock entry with the requested path; otherwise return a default 10MB
`"unknown"` FileInfo.  The `return null` of a real implementation is
commented out in the source, so the result is always present. -/
def getFile (path : String) : Option FileInfo :=
  match getFiles.find? (fun f => f.path == path) with
  | Option.some foundFile => Option.some foundFile
  | Option.none =>
      Option.some
        { name := defaultMockName path
          size := 10 * 1024 * 1024
          type := "unknown"
          path := path }

/-- The file-lookup step of `analyzeCompressionQualityFlow`
(`src/ai/flows/analyze-compression-quality.ts`, lines 104-128): when `getFile`
yields null the flow throws `File not found at path: ...`, otherwise it
continues with the `FileInfo`. -/
def flowFileLookup (path : String) : Except String FileInfo :=
  match getFile path with
  | Option.none => Except.error ("File not found at path: " ++ path)
  | Option.some fileInfo => Except.ok fileInfo

/-- C10: `getFile` always returns a `FileInfo` — the mock entry with the
requested path, or the default 10MB `"unknown"` record — so the flow's
"File not found" branch is unreachable. -/
theorem claim_C10 : ∀ path : String, ∃ fi : FileInfo,
    getFile path = Option.some fi ∧ fi.path = path ∧
    (fi ∈ getFiles ∨ (fi.size = 10 * 1024 * 1024 ∧ fi.type = "unknown")) ∧
    flowFileLookup path = Except.ok fi := by
  intro path
  cases hfind : getFiles.find? (fun f => f.path == path) with
  | some f =>
      have hg : getFile path = Option.some f := by
        unfold getFile
        rw [hfind]
      have hb := List.find?_some hfind
      refine ⟨f, hg, eq_of_beq hb, Or.inl (List.mem_of_find?_eq_some hfind), ?_⟩
      unfold flowFileLookup
      rw [hg]
  | none =>
      have hg : getFile path = Option.some
          { name := defaultMockName path
            size := 10 * 1024 * 1024
            type := "unknown"
            path := path } := by
        unfold getFile
        rw [hfind]
      refine ⟨_, hg, rfl, Or.inr ⟨rfl, rfl⟩, ?_⟩
      unfold flowFileLookup
      rw [hg]
